import Mathlib

/-!
Verification of the emotion inference pipeline of `emotion-sync-ui`
(`src/services/emotionDetection.ts` and the polling aggregator in the
`Index` page component), as a shallow embedding in Lean 4.

JavaScript numbers appearing as classifier scores are modelled as `JsNum`
(either NaN or an exact rational); `Math.random()` is modelled as an explicit
rational parameter `rand` with `0 ≤ rand < 1`; `Date.now()` as an explicit
natural-number millisecond timestamp `now`.  Promises and thrown exceptions
are modelled with `Option` / `Except` results.
-/

namespace EmotionSync

/-- A JavaScript number as it can reach the score-handling code: either NaN
or an exact rational value. -/
inductive JsNum where
  | nan : JsNum
  | num (q : ℚ) : JsNum
deriving DecidableEq, Repr

/-- `interface EmotionResult { label: string; score: number }`.  At runtime the
`score` field may also be absent (`undefined`), modelled by `Option`. -/
structure EmotionResult where
  label : String
  score : Option JsNum
deriving DecidableEq, Repr

/-- `interface EmotionPrediction { emotion; confidence; timestamp }`. -/
structure EmotionPrediction where
  emotion : String
  confidence : ℚ
  timestamp : ℕ
deriving DecidableEq, Repr

/-- The visual sources `detectEmotion` accepts: an `HTMLVideoElement` (with
intrinsic `videoWidth`/`videoHeight`) or an `HTMLImageElement` /
`HTMLCanvasElement` (with `width`/`height`).  Intrinsic dimensions are
nonnegative integers per the HTML specification. -/
inductive ImageSource where
  | video (videoWidth videoHeight : ℕ) : ImageSource
  | image (width height : ℕ) : ImageSource
deriving DecidableEq, Repr

/-- ASCII lowercasing of a string, modelling `String.prototype.toLowerCase`
on the labels involved (all relevant synonym-table keys are ASCII). -/
def toLowerAscii (s : String) : String :=
  String.mk (s.data.map Char.toLower)

/-- The JavaScript value `emotionMap[key] || 'neutral'` can evaluate to.
Property access on an object literal falls through to the prototype chain, so
besides the thirteen own string values two inherited, truthy, non-string
values are reachable: `Object.prototype.constructor` (the `Object`
constructor function, for key `"constructor"`) and `Object.prototype` itself
(via the `__proto__` accessor, for key `"__proto__"`).  Every other
`Object.prototype` property name contains an uppercase letter and cannot be
hit by a lowercased key. -/
inductive JsEmotion where
  | str (s : String) : JsEmotion
  | objectCtor : JsEmotion
  | objectProto : JsEmotion
deriving DecidableEq, Repr

/-- Lines 116-132 of `emotionDetection.ts`: the `emotionMap` object-literal
lookup `emotionMap[topResult.label.toLowerCase()] || 'neutral'`, written as
the chain of key comparisons the lookup performs: the thirteen own keys
first (own properties shadow inherited ones), then the two reachable
inherited keys of `Object.prototype`, whose truthy values prevent
`|| 'neutral'` from firing; only a key absent from both levels yields
`'neutral'` (every own value is a non-empty, hence truthy, string). -/
def normalizeLabel (label : String) : JsEmotion :=
  if toLowerAscii label = "angry" then JsEmotion.str "angry"
  else if toLowerAscii label = "disgusted" then JsEmotion.str "disgust"
  else if toLowerAscii label = "fearful" then JsEmotion.str "fear"
  else if toLowerAscii label = "happy" then JsEmotion.str "happy"
  else if toLowerAscii label = "neutral" then JsEmotion.str "neutral"
  else if toLowerAscii label = "sad" then JsEmotion.str "sad"
  else if toLowerAscii label = "surprised" then JsEmotion.str "surprised"
  else if toLowerAscii label = "contempt" then JsEmotion.str "disgust"
  else if toLowerAscii label = "disgust" then JsEmotion.str "disgust"
  else if toLowerAscii label = "fear" then JsEmotion.str "fear"
  else if toLowerAscii label = "joy" then JsEmotion.str "happy"
  else if toLowerAscii label = "sadness" then JsEmotion.str "sad"
  else if toLowerAscii label = "anger" then JsEmotion.str "angry"
  else if toLowerAscii label = "constructor" then JsEmotion.objectCtor
  else if toLowerAscii label = "__proto__" then JsEmotion.objectProto
  else JsEmotion.str "neutral"

/-- The closed seven-emotion taxonomy. -/
def emotionTaxonomy : List String :=
  ["happy", "sad", "angry", "surprised", "fear", "disgust", "neutral"]

/-- `topResult.score || 0.5` (line 133): JavaScript `||` replaces every falsy
score — absent (`undefined`), `NaN`, and `0` — by `0.5`. -/
def scoreOrHalf : Option JsNum → ℚ
  | none => 1/2
  | some JsNum.nan => 1/2
  | some (JsNum.num q) => if q = 0 then 1/2 else q

/-- `Math.max(0, Math.min(1, topResult.score || 0.5))` (line 133). -/
def clampConfidence (score : Option JsNum) : ℚ :=
  max 0 (min 1 (scoreOrHalf score))

/-- Lines 87-89: the canvas width
`imageElement instanceof HTMLVideoElement ? Math.max(imageElement.videoWidth || 640, 224) : Math.max(imageElement.width || 640, 224)`.
A zero (falsy) intrinsic width is replaced by 640 before the 224 minimum is
applied. -/
def canvasWidth : ImageSource → ℕ
  | ImageSource.video w _ => max (if w = 0 then 640 else w) 224
  | ImageSource.image w _ => max (if w = 0 then 640 else w) 224

/-- Lines 90-92: the canvas height, with falsy heights defaulting to 480. -/
def canvasHeight : ImageSource → ℕ
  | ImageSource.video _ h => max (if h = 0 then 480 else h) 224
  | ImageSource.image _ h => max (if h = 0 then 480 else h) 224

/-- What `await this.classifier(imageData)` can do, as observed by the code
at lines 110-145: throw, return something that is not a (non-null) array, or
return an array of raw results. -/
inductive ClassifierOutput where
  | throws : ClassifierOutput
  | nonArray : ClassifierOutput
  | array (results : List EmotionResult) : ClassifierOutput
deriving DecidableEq, Repr

/-- The record constructed at lines 137-141 of `detectEmotion`.  The
TypeScript interface is erased at runtime: when the `emotionMap` lookup hits
an inherited key the `emotion` field holds a non-string value, so it is
modelled by `JsEmotion` rather than `String` (the fallback path, by
contrast, always constructs a string emotion). -/
structure PrimaryPrediction where
  emotion : JsEmotion
  confidence : ℚ
  timestamp : ℕ
deriving DecidableEq, Repr

/-- Lines 79-149 of `detectEmotion`: the `try` block builds the canvas (if no
2d context is available the thrown error is caught, giving `null`), invokes
the classifier, and post-processes the result array.  `ctxAvailable` models
whether `canvas.getContext('2d')` returned a context; `output` models the
classifier invocation's behaviour on this frame; `now` is `Date.now()` at
prediction construction. -/
def detectEmotion (ctxAvailable : Bool) (output : ClassifierOutput) (now : ℕ) :
    Option PrimaryPrediction :=
  if ctxAvailable = false then none
  else
    match output with
    | ClassifierOutput.throws => none
    | ClassifierOutput.nonArray => none
    | ClassifierOutput.array [] => none
    | ClassifierOutput.array (top :: _) =>
        some { emotion := normalizeLabel top.label
               confidence := clampConfidence top.score
               timestamp := now }

/-- JavaScript truncating division result (`Math.trunc(a / b)`), used to state
the JS remainder operator. -/
def jsTrunc (q : ℚ) : ℤ :=
  if 0 ≤ q then ⌊q⌋ else ⌈q⌉

/-- The JavaScript `%` operator on finite numbers with nonzero divisor:
`a % b = a - b * trunc(a / b)` (remainder takes the sign of the dividend). -/
def jsMod (a b : ℚ) : ℚ :=
  a - b * (jsTrunc (a / b) : ℚ)

/-- Line 155: `const emotions = ['happy', 'neutral', 'surprised', 'sad',
'angry', 'fear', 'disgust']`. -/
def fallbackEmotions : List String :=
  ["happy", "neutral", "surprised", "sad", "angry", "fear", "disgust"]

/-- Lines 153-168, `fallbackEmotionDetection(imageElement)`: selects
`emotions[Math.floor((Date.now() / 3000) % emotions.length)]` and a
confidence `0.4 + Math.random() * 0.3`.  `now` models `Date.now()` (a
nonnegative integer count of milliseconds) and `rand` models the
`Math.random()` draw.  The `imageElement` argument is never consulted. -/
def fallbackEmotionDetection (imageElement : ImageSource) (now : ℕ) (rand : ℚ) :
    EmotionPrediction :=
  let _ := imageElement
  let emotionIndex : ℕ := (⌊jsMod ((now : ℚ) / 3000) 7⌋).toNat
  { emotion := fallbackEmotions.getD emotionIndex "undefined"
    confidence := 4/10 + rand * (3/10)
    timestamp := now }

/-- `{ model, device }` entries of the `modelOptions` list (lines 34-38). -/
structure ModelOption where
  model : String
  device : String
deriving DecidableEq, Repr

/-- Lines 34-38: the ordered candidate list tried by `initialize`. -/
def modelOptions : List ModelOption :=
  [⟨"onnx-community/emotion-ferplus-8", "cpu"⟩,
   ⟨"onnx-community/emotion-ferplus-8", "webgpu"⟩,
   ⟨"Xenova/distilbert-base-uncased-emotion", "cpu"⟩]

/-- The mutable fields of `EmotionDetectionService` (lines 22-24).  The
opaque classifier handle is represented by the candidate it was constructed
from. -/
structure ServiceState where
  classifier : Option ModelOption
  isInitialized : Bool
  isInitializing : Bool
deriving DecidableEq, Repr

/-- The field initializers at lines 22-24: `classifier = null`,
`isInitialized = false`, `isInitializing = false`. -/
def initialState : ServiceState :=
  { classifier := none, isInitialized := false, isInitializing := false }

/-- The candidate loop of `initialize` (lines 40-61): try each option in
order; `load o = true` models `await pipeline(...)` resolving for candidate
`o`, `false` models it rejecting (logged, loop continues). Returns the first
successfully loaded candidate. -/
def tryModels (load : ModelOption → Bool) : List ModelOption → Option ModelOption
  | [] => none
  | o :: rest => if load o then some o else tryModels load rest

/-- `initialize()` (lines 26-72): a no-op when already initialized or
initializing; otherwise runs the candidate loop, adopting the first success,
and when every candidate fails throws
`'All emotion detection models failed to load'` (rethrown by the outer
`catch`); the `finally` clause clears `isInitializing`.  Result: the final
field state plus the normal/thrown outcome. -/
def initializeService (load : ModelOption → Bool) (s : ServiceState) :
    ServiceState × Except String Unit :=
  if s.isInitialized || s.isInitializing then (s, Except.ok ())
  else
    match tryModels load modelOptions with
    | some o =>
        ({ classifier := some o, isInitialized := true, isInitializing := false },
         Except.ok ())
    | none =>
        ({ s with isInitializing := false },
         Except.error "All emotion detection models failed to load")

/-- `isReady()` (lines 191-193). -/
def isReady (s : ServiceState) : Bool :=
  s.isInitialized

/-- `detectEmotionWithFallback(imageElement)` (lines 170-189): the shipped
body is exactly `return this.fallbackEmotionDetection(imageElement)` — the
primary path is present only as commented-out code.  The service state `s`
(`this`) and the would-be behaviour `primary` of the classifier on this
frame are in scope for the method but never consulted. -/
def detectEmotionWithFallback (s : ServiceState) (primary : ClassifierOutput)
    (imageElement : ImageSource) (now : ℕ) (rand : ℚ) :
    Option EmotionPrediction :=
  let _ := s
  let _ := primary
  some (fallbackEmotionDetection imageElement now rand)

/-- Line 251 of the `Index` component:
`setEmotionHistory(prev => [...prev.slice(-49), prediction])`.
`prev.slice(-49)` keeps the last `min(49, prev.length)` elements, i.e. drops
`prev.length - 49` (truncated subtraction) from the front. -/
def appendHistory (prev : List EmotionPrediction) (p : EmotionPrediction) :
    List EmotionPrediction :=
  prev.drop (prev.length - 49) ++ [p]

/-- The aggregator state owned by the `Index` component: `currentEmotion`
and `emotionHistory` (lines 207-208). -/
structure AggState where
  current : Option EmotionPrediction
  history : List EmotionPrediction
deriving DecidableEq, Repr

/-- `useState` initial values (lines 207-208). -/
def initialAggState : AggState :=
  { current := none, history := [] }

/-- One tick of the `detectEmotion` callback in `Index` (lines 244-256):
`if (prediction) { setCurrentEmotion(prediction); setEmotionHistory(...) }`.
A `null` prediction leaves both pieces of state unchanged. -/
def tick (s : AggState) (prediction : Option EmotionPrediction) : AggState :=
  match prediction with
  | none => s
  | some p => { current := some p, history := appendHistory s.history p }

end EmotionSync

namespace EmotionSync

/-! ### Helper lemmas -/

/-- For a nonnegative millisecond timestamp, the index expression
`Math.floor((now / 3000) % 7)` computed with real-valued `/` and the JS `%`
equals the integer `(now / 3000) % 7`. -/
lemma fallback_index (now : ℕ) :
    (⌊jsMod ((now : ℚ) / 3000) 7⌋).toNat = (now / 3000) % 7 := by
  have h0 : (0:ℚ) ≤ (now : ℚ) / 3000 / 7 := by positivity
  have hq : jsMod ((now : ℚ) / 3000) 7
      = (now : ℚ) / 3000 - (((7 * ((now / 21000 : ℕ) : ℤ) : ℤ)) : ℚ) := by
    unfold jsMod jsTrunc
    rw [if_pos h0]
    have h1 : ((now : ℚ) / 3000 / 7) = ((now : ℚ) / ((21000:ℕ):ℚ)) := by
      push_cast
      ring
    rw [h1, Rat.floor_natCast_div_natCast now 21000]
    push_cast
    ring
  rw [hq, Int.floor_sub_int]
  have h2 : ⌊(now : ℚ) / 3000⌋ = ((now / 3000 : ℕ) : ℤ) := by
    have h := Rat.floor_natCast_div_natCast now 3000
    push_cast at h ⊢
    exact_mod_cast h
  rw [h2]
  have h3 : now / 21000 = (now / 3000) / 7 := by
    rw [Nat.div_div_eq_div_mul]
  rw [h3]
  omega

/-- The fallback's selected label, rephrased through `fallback_index`. -/
lemma fallback_emotion (src : ImageSource) (now : ℕ) (rand : ℚ) :
    (fallbackEmotionDetection src now rand).emotion
      = fallbackEmotions.getD ((now / 3000) % 7) "undefined" := by
  unfold fallbackEmotionDetection
  dsimp only
  rw [fallback_index]

/-- The fallback's confidence expression. -/
lemma fallback_confidence (src : ImageSource) (now : ℕ) (rand : ℚ) :
    (fallbackEmotionDetection src now rand).confidence = 4/10 + rand * (3/10) := rfl

/-- Clamped confidences are nonnegative. -/
lemma clampConfidence_nonneg (s : Option JsNum) : 0 ≤ clampConfidence s :=
  le_max_left 0 _

/-- Clamped confidences are at most one. -/
lemma clampConfidence_le_one (s : Option JsNum) : clampConfidence s ≤ 1 :=
  max_le (by norm_num) (min_le_left _ _)

end EmotionSync

namespace EmotionSync

/-! ### Claim theorems -/

/-- C1: for every source and every primary-path condition (service state and
would-be classifier behaviour), `detectEmotionWithFallback` returns a
non-null `EmotionPrediction`. -/
theorem detectWithFallback_never_null (s : ServiceState) (primary : ClassifierOutput)
    (src : ImageSource) (now : ℕ) (rand : ℚ) :
    ∃ p : EmotionPrediction, detectEmotionWithFallback s primary src now rand = some p :=
  ⟨fallbackEmotionDetection src now rand, rfl⟩

/-- C9: in the pinned fallback-only mode, the result of
`detectEmotionWithFallback` is independent of its source argument (and of the
service state and classifier behaviour): two calls at the same instant with
the same randomness return identical predictions. -/
theorem detectWithFallback_source_independent
    (s₁ s₂ : ServiceState) (primary₁ primary₂ : ClassifierOutput)
    (src₁ src₂ : ImageSource) (now : ℕ) (rand : ℚ) :
    detectEmotionWithFallback s₁ primary₁ src₁ now rand
      = detectEmotionWithFallback s₂ primary₂ src₂ now rand := rfl

/-- C7: whenever the classifier invocation throws, or returns a
non-conforming or empty result set, `detectEmotion` returns `null` instead of
propagating an exception (in either canvas-context condition). -/
theorem detectEmotion_null_on_failure (ctx : Bool) (now : ℕ) :
    detectEmotion ctx ClassifierOutput.throws now = none
    ∧ detectEmotion ctx ClassifierOutput.nonArray now = none
    ∧ detectEmotion ctx (ClassifierOutput.array []) now = none := by
  cases ctx <;> simp [detectEmotion]

/-- C10: a top-ranked result with score exactly 0 yields confidence 0.5
rather than 0 — the `score || 0.5` defaulting treats a zero score exactly
like an absent one, producing the very same prediction. -/
theorem zero_score_defaults_to_half (label : String) (rest : List EmotionResult) (now : ℕ) :
    (∃ p : PrimaryPrediction,
        detectEmotion true (ClassifierOutput.array (⟨label, some (JsNum.num 0)⟩ :: rest)) now
          = some p
        ∧ p.confidence = 1/2)
    ∧ detectEmotion true (ClassifierOutput.array (⟨label, some (JsNum.num 0)⟩ :: rest)) now
      = detectEmotion true (ClassifierOutput.array (⟨label, none⟩ :: rest)) now := by
  refine ⟨⟨_, rfl, ?_⟩, ?_⟩
  · norm_num [clampConfidence, scoreOrHalf]
  · norm_num [detectEmotion, clampConfidence, scoreOrHalf]

/-- C6 (counterexample): a video source whose intrinsic width is 0 gets a
canvas width of 640, not `max 0 224 = 224` — the code defaults falsy
dimensions to 640/480 before applying the 224 minimum. -/
theorem canvas_dims_counterexample :
    canvasWidth (ImageSource.video 0 50) = 640
    ∧ canvasWidth (ImageSource.video 0 50) ≠ max 0 224 := by decide

/-- C6 (amended): for nonzero intrinsic dimensions the canvas is
`max(w,224) × max(h,224)` per axis; a zero width defaults to 640 and a zero
height to 480 before the minimum is applied; both canvas dimensions are
always at least 224; and the 100×50 scenario yields 224×224. -/
theorem canvas_dims_amended (src : ImageSource) (w h : ℕ) (hw : w ≠ 0) (hh : h ≠ 0) :
    canvasWidth (ImageSource.video w h) = max w 224
    ∧ canvasHeight (ImageSource.video w h) = max h 224
    ∧ canvasWidth (ImageSource.image w h) = max w 224
    ∧ canvasHeight (ImageSource.image w h) = max h 224
    ∧ canvasWidth (ImageSource.video 0 h) = 640
    ∧ canvasHeight (ImageSource.video w 0) = 480
    ∧ canvasWidth (ImageSource.image 0 h) = 640
    ∧ canvasHeight (ImageSource.image w 0) = 480
    ∧ 224 ≤ canvasWidth src
    ∧ 224 ≤ canvasHeight src
    ∧ canvasWidth (ImageSource.video 100 50) = 224
    ∧ canvasHeight (ImageSource.video 100 50) = 224 := by
  refine ⟨?_, ?_, ?_, ?_, ?_, ?_, ?_, ?_, ?_, ?_, by decide, by decide⟩
  · simp [canvasWidth, hw]
  · simp [canvasHeight, hh]
  · simp [canvasWidth, hw]
  · simp [canvasHeight, hh]
  · simp [canvasWidth]
  · simp [canvasHeight]
  · simp [canvasWidth]
  · simp [canvasHeight]
  · cases src <;> simp [canvasWidth]
  · cases src <;> simp [canvasHeight]

/-- C6 (witness): the amended theorem instantiated at concrete dimensions. -/
theorem canvas_dims_amended_witness :
    canvasWidth (ImageSource.video 5 7) = max 5 224
    ∧ canvasHeight (ImageSource.video 5 7) = max 7 224
    ∧ canvasWidth (ImageSource.image 5 7) = max 5 224
    ∧ canvasHeight (ImageSource.image 5 7) = max 7 224
    ∧ canvasWidth (ImageSource.video 0 7) = 640
    ∧ canvasHeight (ImageSource.video 5 0) = 480
    ∧ canvasWidth (ImageSource.image 0 7) = 640
    ∧ canvasHeight (ImageSource.image 5 0) = 480
    ∧ 224 ≤ canvasWidth (ImageSource.video 640 480)
    ∧ 224 ≤ canvasHeight (ImageSource.video 640 480)
    ∧ canvasWidth (ImageSource.video 100 50) = 224
    ∧ canvasHeight (ImageSource.video 100 50) = 224 :=
  canvas_dims_amended (ImageSource.video 640 480) 5 7 (by decide) (by decide)

end EmotionSync

namespace EmotionSync

/-- C2: every prediction produced by the primary path has confidence in
[0,1]; the `{Joy, 1.4}` and `{xyz, -0.2}` scenarios clamp to 1 and 0; a NaN
or absent score defaults to 0.5; and the fallback path's confidence is also
in [0,1]. -/
theorem confidence_always_clamped (top : EmotionResult) (rest : List EmotionResult)
    (now : ℕ) (src : ImageSource) (rand : ℚ) (hr0 : 0 ≤ rand) (hr1 : rand < 1) :
    (∃ p : PrimaryPrediction,
        detectEmotion true (ClassifierOutput.array (top :: rest)) now = some p
        ∧ 0 ≤ p.confidence ∧ p.confidence ≤ 1)
    ∧ detectEmotion true
        (ClassifierOutput.array [{ label := "Joy", score := some (JsNum.num (7/5)) }]) now
      = some { emotion := JsEmotion.str "happy", confidence := 1, timestamp := now }
    ∧ detectEmotion true
        (ClassifierOutput.array [{ label := "xyz", score := some (JsNum.num (-(1/5))) }]) now
      = some { emotion := JsEmotion.str "neutral", confidence := 0, timestamp := now }
    ∧ detectEmotion true
        (ClassifierOutput.array [{ label := top.label, score := some JsNum.nan }]) now
      = some { emotion := normalizeLabel top.label, confidence := 1/2, timestamp := now }
    ∧ detectEmotion true
        (ClassifierOutput.array [{ label := top.label, score := none }]) now
      = some { emotion := normalizeLabel top.label, confidence := 1/2, timestamp := now }
    ∧ 0 ≤ (fallbackEmotionDetection src now rand).confidence
    ∧ (fallbackEmotionDetection src now rand).confidence ≤ 1 := by
  refine ⟨⟨_, rfl, clampConfidence_nonneg top.score, clampConfidence_le_one top.score⟩,
    ?_, ?_, ?_, ?_, ?_, ?_⟩
  · have hjoy : normalizeLabel "Joy" = JsEmotion.str "happy" := by decide
    norm_num [detectEmotion, clampConfidence, scoreOrHalf, hjoy]
  · have hxyz : normalizeLabel "xyz" = JsEmotion.str "neutral" := by decide
    norm_num [detectEmotion, clampConfidence, scoreOrHalf, hxyz]
  · norm_num [detectEmotion, clampConfidence, scoreOrHalf]
  · norm_num [detectEmotion, clampConfidence, scoreOrHalf]
  · rw [fallback_confidence]
    nlinarith
  · rw [fallback_confidence]
    nlinarith

/-- C2 (witness): the clamping theorem instantiated at a concrete raw result,
timestamp, source and random draw. -/
theorem confidence_always_clamped_witness :
    (∃ p : PrimaryPrediction,
        detectEmotion true
          (ClassifierOutput.array ({ label := "Joy", score := some (JsNum.num (7/5)) } :: []))
          0 = some p
        ∧ 0 ≤ p.confidence ∧ p.confidence ≤ 1)
    ∧ detectEmotion true
        (ClassifierOutput.array [{ label := "Joy", score := some (JsNum.num (7/5)) }]) 0
      = some { emotion := JsEmotion.str "happy", confidence := 1, timestamp := 0 }
    ∧ detectEmotion true
        (ClassifierOutput.array [{ label := "xyz", score := some (JsNum.num (-(1/5))) }]) 0
      = some { emotion := JsEmotion.str "neutral", confidence := 0, timestamp := 0 }
    ∧ detectEmotion true
        (ClassifierOutput.array
          [{ label := (EmotionResult.mk "Joy" (some (JsNum.num (7/5)))).label,
             score := some JsNum.nan }]) 0
      = some { emotion := normalizeLabel (EmotionResult.mk "Joy" (some (JsNum.num (7/5)))).label,
               confidence := 1/2, timestamp := 0 }
    ∧ detectEmotion true
        (ClassifierOutput.array
          [{ label := (EmotionResult.mk "Joy" (some (JsNum.num (7/5)))).label,
             score := none }]) 0
      = some { emotion := normalizeLabel (EmotionResult.mk "Joy" (some (JsNum.num (7/5)))).label,
               confidence := 1/2, timestamp := 0 }
    ∧ 0 ≤ (fallbackEmotionDetection (ImageSource.video 640 480) 0 (1/2)).confidence
    ∧ (fallbackEmotionDetection (ImageSource.video 640 480) 0 (1/2)).confidence ≤ 1 :=
  confidence_always_clamped ⟨"Joy", some (JsNum.num (7/5))⟩ [] 0
    (ImageSource.video 640 480) (1/2) (by norm_num) (by norm_num)

/-- C3: the fallback selects its label by `floor(now / 3000) mod 7` from the
fixed seven-label cycle — deterministic in `now` (independent of the source
and the random draw), different at `now = 0` and `now = 3000`, with
confidence in [0.4, 0.7]. -/
theorem fallback_cycles_by_window (src src₁ src₂ : ImageSource) (now : ℕ)
    (rand rand₁ rand₂ : ℚ) (hr0 : 0 ≤ rand) (hr1 : rand < 1) :
    (fallbackEmotionDetection src now rand).emotion
      = fallbackEmotions.getD ((now / 3000) % 7) "undefined"
    ∧ (fallbackEmotionDetection src₁ now rand₁).emotion
      = (fallbackEmotionDetection src₂ now rand₂).emotion
    ∧ (fallbackEmotionDetection src 0 rand).emotion
      ≠ (fallbackEmotionDetection src 3000 rand).emotion
    ∧ 2/5 ≤ (fallbackEmotionDetection src now rand).confidence
    ∧ (fallbackEmotionDetection src now rand).confidence ≤ 7/10 := by
  refine ⟨fallback_emotion src now rand, ?_, ?_, ?_, ?_⟩
  · rw [fallback_emotion, fallback_emotion]
  · rw [fallback_emotion, fallback_emotion]
    decide
  · rw [fallback_confidence]
    nlinarith
  · rw [fallback_confidence]
    nlinarith

/-- C3 (witness): the cycling theorem instantiated at `now = 0` with a
concrete source and random draw. -/
theorem fallback_cycles_by_window_witness :
    (fallbackEmotionDetection (ImageSource.video 640 480) 0 (1/2)).emotion
      = fallbackEmotions.getD ((0 / 3000) % 7) "undefined"
    ∧ (fallbackEmotionDetection (ImageSource.video 640 480) 0 0).emotion
      = (fallbackEmotionDetection (ImageSource.image 100 50) 0 (1/2)).emotion
    ∧ (fallbackEmotionDetection (ImageSource.video 640 480) 0 (1/2)).emotion
      ≠ (fallbackEmotionDetection (ImageSource.video 640 480) 3000 (1/2)).emotion
    ∧ 2/5 ≤ (fallbackEmotionDetection (ImageSource.video 640 480) 0 (1/2)).confidence
    ∧ (fallbackEmotionDetection (ImageSource.video 640 480) 0 (1/2)).confidence ≤ 7/10 :=
  fallback_cycles_by_window (ImageSource.video 640 480) (ImageSource.video 640 480)
    (ImageSource.image 100 50) 0 (1/2) 0 (1/2) (by norm_num) (by norm_num)

end EmotionSync

namespace EmotionSync

/-- C4 (counterexample): the labels "constructor" and "__proto__" (already
lowercase) hit inherited properties of `Object.prototype`, so the lookup
yields a truthy non-string value, `|| 'neutral'` never fires, and the result
is neither `neutral` nor any of the seven canonical emotions. -/
theorem normalize_prototype_counterexample :
    normalizeLabel "constructor" = JsEmotion.objectCtor
    ∧ normalizeLabel "constructor" ∉ emotionTaxonomy.map JsEmotion.str
    ∧ normalizeLabel "__proto__" = JsEmotion.objectProto
    ∧ normalizeLabel "__proto__" ∉ emotionTaxonomy.map JsEmotion.str := by
  decide

/-- C4 (amended): label normalization is total (never throws) and
case-insensitive (it depends on the label only through its lowercasing);
"Joy" maps to happy, "contempt" to disgust, and the empty string to neutral;
and for every label whose lowercasing is neither "constructor" nor
"__proto__" the result is one of the seven canonical emotions, with unknown
labels mapping to neutral.  The two excluded labels instead resolve through
the prototype chain to inherited non-string values. -/
theorem normalize_total_closed (label l₁ l₂ : String)
    (hctor : toLowerAscii label ≠ "constructor")
    (hproto : toLowerAscii label ≠ "__proto__") :
    normalizeLabel label ∈ emotionTaxonomy.map JsEmotion.str
    ∧ normalizeLabel "Joy" = JsEmotion.str "happy"
    ∧ normalizeLabel "contempt" = JsEmotion.str "disgust"
    ∧ normalizeLabel "" = JsEmotion.str "neutral"
    ∧ (toLowerAscii l₁ = toLowerAscii l₂ → normalizeLabel l₁ = normalizeLabel l₂)
    ∧ (toLowerAscii label ∉ ["angry", "disgusted", "fearful", "happy", "neutral", "sad",
          "surprised", "contempt", "disgust", "fear", "joy", "sadness", "anger"] →
        normalizeLabel label = JsEmotion.str "neutral")
    ∧ normalizeLabel "constructor" = JsEmotion.objectCtor
    ∧ normalizeLabel "__proto__" = JsEmotion.objectProto := by
  refine ⟨?_, by decide, by decide, by decide, ?_, ?_, by decide, by decide⟩
  · unfold normalizeLabel emotionTaxonomy
    by_cases h1 : toLowerAscii label = "angry"
    · rw [if_pos h1]
      decide
    rw [if_neg h1]
    by_cases h2 : toLowerAscii label = "disgusted"
    · rw [if_pos h2]
      decide
    rw [if_neg h2]
    by_cases h3 : toLowerAscii label = "fearful"
    · rw [if_pos h3]
      decide
    rw [if_neg h3]
    by_cases h4 : toLowerAscii label = "happy"
    · rw [if_pos h4]
      decide
    rw [if_neg h4]
    by_cases h5 : toLowerAscii label = "neutral"
    · rw [if_pos h5]
      decide
    rw [if_neg h5]
    by_cases h6 : toLowerAscii label = "sad"
    · rw [if_pos h6]
      decide
    rw [if_neg h6]
    by_cases h7 : toLowerAscii label = "surprised"
    · rw [if_pos h7]
      decide
    rw [if_neg h7]
    by_cases h8 : toLowerAscii label = "contempt"
    · rw [if_pos h8]
      decide
    rw [if_neg h8]
    by_cases h9 : toLowerAscii label = "disgust"
    · rw [if_pos h9]
      decide
    rw [if_neg h9]
    by_cases h10 : toLowerAscii label = "fear"
    · rw [if_pos h10]
      decide
    rw [if_neg h10]
    by_cases h11 : toLowerAscii label = "joy"
    · rw [if_pos h11]
      decide
    rw [if_neg h11]
    by_cases h12 : toLowerAscii label = "sadness"
    · rw [if_pos h12]
      decide
    rw [if_neg h12]
    by_cases h13 : toLowerAscii label = "anger"
    · rw [if_pos h13]
      decide
    rw [if_neg h13]
    rw [if_neg hctor, if_neg hproto]
    decide
  · intro h
    unfold normalizeLabel
    rw [h]
  · intro h
    simp only [List.mem_cons, List.not_mem_nil, or_false] at h
    push_neg at h
    obtain ⟨g1, g2, g3, g4, g5, g6, g7, g8, g9, g10, g11, g12, g13⟩ := h
    unfold normalizeLabel
    rw [if_neg g1, if_neg g2, if_neg g3, if_neg g4, if_neg g5, if_neg g6, if_neg g7, if_neg g8, if_neg g9, if_neg g10, if_neg g11, if_neg g12, if_neg g13, if_neg hctor, if_neg hproto]

/-- C4 (witness): the amended normalization theorem instantiated at concrete
labels with every hypothesis discharged. -/
theorem normalize_total_closed_witness :
    normalizeLabel "XyZ" ∈ emotionTaxonomy.map JsEmotion.str
    ∧ normalizeLabel "Joy" = JsEmotion.str "happy"
    ∧ normalizeLabel "contempt" = JsEmotion.str "disgust"
    ∧ normalizeLabel "" = JsEmotion.str "neutral"
    ∧ (toLowerAscii "JOY" = toLowerAscii "joy" → normalizeLabel "JOY" = normalizeLabel "joy")
    ∧ (toLowerAscii "XyZ" ∉ ["angry", "disgusted", "fearful", "happy", "neutral", "sad",
          "surprised", "contempt", "disgust", "fear", "joy", "sadness", "anger"] →
        normalizeLabel "XyZ" = JsEmotion.str "neutral")
    ∧ normalizeLabel "constructor" = JsEmotion.objectCtor
    ∧ normalizeLabel "__proto__" = JsEmotion.objectProto :=
  normalize_total_closed "XyZ" "JOY" "joy" (by decide) (by decide)

/-- Appending to the folded history keeps exactly the most recent 50
predictions and tracks the latest one as current. -/
lemma tick_fold_history (ps : List EmotionPrediction) :
    (ps.foldl (fun s p => tick s (some p)) initialAggState).history
      = ps.drop (ps.length - 50)
    ∧ (ps.foldl (fun s p => tick s (some p)) initialAggState).current = ps.getLast? := by
  induction ps using List.reverseRecOn with
  | nil => exact ⟨rfl, rfl⟩
  | append_singleton ps p ih =>
    rw [List.foldl_append]
    obtain ⟨ihh, ihc⟩ := ih
    constructor
    · show appendHistory (ps.foldl (fun s p => tick s (some p)) initialAggState).history p
        = (ps ++ [p]).drop ((ps ++ [p]).length - 50)
      rw [ihh]
      unfold appendHistory
      rw [List.drop_drop, List.length_drop, List.length_append, List.length_singleton]
      have hle : ps.length + 1 - 50 ≤ ps.length := by omega
      rw [List.drop_append_of_le_length hle]
      have hidx : (ps.length - 50) + ((ps.length - (ps.length - 50)) - 49)
          = ps.length + 1 - 50 := by omega
      rw [hidx]
    · show some p = (ps ++ [p]).getLast?
      rw [List.getLast?_concat]

/-- C5: after any sequence of appended predictions the history holds exactly
the 50 most recent in their original relative order (hence never exceeds 50
entries), and the current emotion is the most recently appended
prediction. -/
theorem history_bounded_by_50 (ps : List EmotionPrediction) :
    (ps.foldl (fun s p => tick s (some p)) initialAggState).history
      = ps.drop (ps.length - 50)
    ∧ (ps.foldl (fun s p => tick s (some p)) initialAggState).history.length ≤ 50
    ∧ (ps.foldl (fun s p => tick s (some p)) initialAggState).current = ps.getLast? := by
  obtain ⟨hh, hc⟩ := tick_fold_history ps
  refine ⟨hh, ?_, hc⟩
  rw [hh, List.length_drop]
  omega

/-- The candidate loop returns no classifier when every candidate fails. -/
lemma tryModels_none (load : ModelOption → Bool) :
    ∀ l : List ModelOption, (∀ o ∈ l, load o = false) → tryModels load l = none := by
  intro l
  induction l with
  | nil => intro _; rfl
  | cons o rest ih =>
    intro h
    unfold tryModels
    rw [h o (List.mem_cons_self o rest)]
    exact ih fun o' ho' => h o' (List.mem_cons_of_mem o ho')

/-- With an all-failing loader, one `initialize()` call never sets
`isInitialized`. -/
lemma initializeService_keeps_unready (load : ModelOption → Bool)
    (hfail : ∀ o ∈ modelOptions, load o = false) (s : ServiceState)
    (hs : s.isInitialized = false) :
    ((initializeService load s).1).isInitialized = false := by
  unfold initializeService
  cases hini : s.isInitializing
  · simp only [hs, hini, Bool.or_self, Bool.false_eq_true, if_false,
      tryModels_none load modelOptions hfail]
  · simp only [hs, hini, Bool.or_true, if_true]

/-- C8: when every model candidate fails to load, `initialize` surfaces the
aggregate error, `isReady()` stays false after arbitrarily many further
initialization attempts, and `detectEmotionWithFallback` still returns a
non-null prediction. -/
theorem all_candidates_failed (load : ModelOption → Bool)
    (hfail : ∀ o ∈ modelOptions, load o = false) :
    (initializeService load initialState).2
      = Except.error "All emotion detection models failed to load"
    ∧ (∀ n : ℕ, isReady ((fun s => (initializeService load s).1)^[n] initialState) = false)
    ∧ (∀ (s : ServiceState) (primary : ClassifierOutput) (src : ImageSource)
        (now : ℕ) (rand : ℚ),
        ∃ p : EmotionPrediction, detectEmotionWithFallback s primary src now rand = some p) := by
  refine ⟨?_, ?_, ?_⟩
  · unfold initializeService initialState
    simp only [Bool.or_self, Bool.false_eq_true, if_false]
    rw [tryModels_none load modelOptions hfail]
  · intro n
    induction n with
    | zero => rfl
    | succ n ih =>
      rw [Function.iterate_succ_apply']
      exact initializeService_keeps_unready load hfail _ ih
  · intro s primary src now rand
    exact ⟨fallbackEmotionDetection src now rand, rfl⟩

/-- C8 (witness): the all-candidates-failed theorem instantiated at the
always-failing loader. -/
theorem all_candidates_failed_witness :
    (initializeService (fun _ => false) initialState).2
      = Except.error "All emotion detection models failed to load"
    ∧ (∀ n : ℕ, isReady ((fun s => (initializeService (fun _ => false) s).1)^[n] initialState)
        = false)
    ∧ (∀ (s : ServiceState) (primary : ClassifierOutput) (src : ImageSource)
        (now : ℕ) (rand : ℚ),
        ∃ p : EmotionPrediction,
          detectEmotionWithFallback s primary src now rand = some p) :=
  all_candidates_failed (fun _ => false) (fun _ _ => rfl)

end EmotionSync
